import Mathlib

/-
Verification of the swasya-ai clinic backend's document-batch / timeline
pipeline, as a shallow embedding in Lean.

The embedding follows the Python source:
  * backend/simple_backend/app/services/timeline_service.py
      (generate_comprehensive_timeline, its markdown cleanup and fallback)
  * backend/simple_backend/app/services/mongo_service.py
      (document / batch / timeline store operations)
  * backend/simple_backend/app/routes/documents.py
      (start_document_batch, upload_document_to_batch,
       complete_batch_and_generate_timeline)
  * simple_backend/app/services/ai_service.py (extract_prescription)
  * backend/lambdas/scribe_task/handler.py (transcribe_audio polling loop)

Python dict values are modelled by an inductive Json type; MongoDB
collections are lists of records; external collaborators (the Gemini text
generation call, the json.loads decoder of the standard library, clocks and
id generators) are parameters of the embedded functions, so each embedded
function is a pure, executable Lean definition.
-/

/-- JSON-like values: the shape of Python dict/list/str/int/bool/None data
as used by the services (extracted payloads, parsed model output). -/
inductive Json where
  | null : Json
  | bool (b : Bool) : Json
  | num (n : Int) : Json
  | str (s : String) : Json
  | arr (elems : List Json) : Json
  | obj (fields : List (String × Json)) : Json

/-- Python truthiness (`bool(x)`) for the modelled values: None, 0, "",
empty list and empty dict are falsy, everything else truthy.  Used by the
source's `if doc.get('extracted_data')` filters. -/
def Json.truthy : Json → Bool
  | .null => false
  | .bool b => b
  | .num n => n != 0
  | .str s => s != ""
  | .arr elems => !elems.isEmpty
  | .obj fields => !fields.isEmpty

/-- Python `d.get(k)` on a dict (first binding of the key; `none` when the
key is absent or the value is not a dict at all — the non-dict case models
the places guarded in theorems by `isObjOrNull`). -/
def Json.get? : Json → String → Option Json
  | .obj fields, k => (fields.find? (fun p => p.1 == k)).map (·.2)
  | _, _ => none

/-- Python `d.get(k, dflt)`. -/
def Json.getD (j : Json) (k : String) (dflt : Json) : Json :=
  (j.get? k).getD dflt

/-- Values on which the embedding of Python attribute access `.get` is
faithful: a dict (lookup) or None (guarded by the source's truthiness
filters before any `.get`). -/
def Json.isObjOrNull : Json → Bool
  | .null => true
  | .obj _ => true
  | _ => false

/-- `json.loads` result when it succeeds and yields a value that the
success path can treat as a dict.  (The services call `.get` on the parsed
value right away, so a non-dict parse raises and lands in the same handler
as a parse error.) -/
def Json.isObj : Json → Bool
  | .obj _ => true
  | _ => false

-- ==================== text handling (Python str methods) ====================

/-- The backquote character, written by code point. -/
def backtick : Char := Char.ofNat 96

/-- The markdown code-fence marker, three backquotes. -/
def fence : List Char := [backtick, backtick, backtick]

/-- The four characters of the tag checked by `text.startswith('json')`. -/
def jsonTag : List Char := ['j', 's', 'o', 'n']

/-- Whitespace stripped by Python `str.strip()` (the ASCII cases). -/
def pyIsSpace (c : Char) : Bool :=
  c == ' ' || c == '\t' || c == '\n' || c == '\r' ||
    c == Char.ofNat 11 || c == Char.ofNat 12

/-- Python `str.strip()`: drop whitespace from both ends. -/
def pyStrip (l : List Char) : List Char :=
  ((l.dropWhile pyIsSpace).reverse.dropWhile pyIsSpace).reverse

/-- Worker for Python `str.split(sep)`: scan left to right, cutting at each
non-overlapping occurrence of `sep`; `acc` holds the current chunk
reversed. -/
def splitOnAux (sep : List Char) (acc : List Char) : List Char → List (List Char)
  | [] => [acc.reverse]
  | c :: rest =>
    if sep.isPrefixOf (c :: rest) then
      acc.reverse :: splitOnAux sep [] (List.drop (sep.length - 1) rest)
    else
      splitOnAux sep (c :: acc) rest
termination_by l => l.length
decreasing_by
  · simp only [List.length_drop, List.length_cons]
    omega
  · simp

/-- Python `text.split(sep)` for a non-empty separator. -/
def splitOn (sep : List Char) (l : List Char) : List (List Char) :=
  splitOnAux sep [] l

/-- The markdown cleanup performed on the model's response text by
`generate_comprehensive_timeline`, `extract_prescription` and
`generate_soap_note`:

    if text.startswith('```'):
        text = text.split('```')[1]
        if text.startswith('json'):
            text = text[4:]
        text = text.strip()

(When the text starts with the fence, `split` always yields at least two
chunks, so the index-1 access cannot fail; `getD 1 []` mirrors it.) -/
def cleanText (text : List Char) : List Char :=
  if fence.isPrefixOf text then
    let t := (splitOn fence text).getD 1 []
    let t := if jsonTag.isPrefixOf t then t.drop 4 else t
    pyStrip t
  else text

/-- Whether a character list contains three consecutive backquotes — the
condition under which `split('```')` cuts inside it. -/
def hasTriple : List Char → Bool
  | [] => false
  | c :: rest => fence.isPrefixOf (c :: rest) || hasTriple rest

-- ==================== document records ====================

/-- A record of the `documents` MongoDB collection, as created by
`upload_document_to_batch` (every field is set at creation;
`extracted_data` starts as None, modelled by `Json.null`).  `uploaded_at`
carries the ISO timestamp, modelled as a monotone natural clock value. -/
structure Doc where
  document_id : String
  patient_id : String
  batch_id : String
  image_file : String
  status : String
  uploaded_at : Nat
  extracted_data : Json

-- ==================== timeline_service.py ====================

/-- `all_prescriptions` of `generate_comprehensive_timeline`: the extracted
payloads of exactly the documents whose `extracted_data` is truthy
(`if doc.get('extracted_data')`), in list order. -/
def synthesis_input (documents : List Doc) : List Json :=
  documents.filterMap fun d =>
    if d.extracted_data.truthy then some d.extracted_data else none

/-- One fallback event per document with truthy `extracted_data`, keeping
the 1-based position `i+1` of the document in the full enumerated list
(`for i, doc in enumerate(documents) if doc.get('extracted_data')`). -/
def fallback_events_from (i : Nat) : List Doc → List Json
  | [] => []
  | d :: rest =>
    (if d.extracted_data.truthy then
      [Json.obj
        [("date", .str "Unknown"),
         ("event_type", .str "prescription"),
         ("description", .str ("Document " ++ toString (i + 1))),
         ("medications", d.extracted_data.getD "medications" (.arr [])),
         ("doctor", (d.extracted_data.get? "doctor_name").getD .null),
         ("notes", .str "Extracted from scanned document")]]
    else []) ++ fallback_events_from (i + 1) rest

/-- The deterministic fallback timeline built by the `except` handler of
`generate_comprehensive_timeline`: positional events, empty
current-medication / chronic-condition / allergy lists, a count-bearing
summary, and the error marker `"error": str(e)`. -/
def fallback_timeline (documents : List Doc) (e : String) : Json :=
  Json.obj
    [("timeline_events", .arr (fallback_events_from 0 documents)),
     ("current_medications", .arr []),
     ("chronic_conditions", .arr []),
     ("allergies", .arr []),
     ("summary", .str ("Patient has " ++ toString documents.length ++
        " prescription documents on file. Individual analysis completed.")),
     ("error", .str e)]

/-- Message standing in for the text of a Python AttributeError raised when
`.get` is called on a non-dict parse result (caught by the same handler as
a decode error). -/
def attrErr : String := "AttributeError"

/-- `generate_comprehensive_timeline(documents, patient_info)` of
timeline_service.py.  `jsonLoads` stands for the standard library decoder
`json.loads` (an external, uninterpreted parameter); `genResult` is the
outcome of `model.generate_content(prompt)` followed by `response.text`:
`.ok text` when the call returned text, `.error e` when the call itself
raised.  Every branch — including a raising generation call — lands in the
single `except Exception` handler and yields the fallback, so the function
is total: it never propagates an error to its caller. -/
def generate_comprehensive_timeline (jsonLoads : List Char → Except String Json)
    (documents : List Doc) (genResult : Except String (List Char)) : Json :=
  match genResult with
  | .error e => fallback_timeline documents e
  | .ok raw =>
    let text := cleanText (pyStrip raw)
    match jsonLoads text with
    | .ok parsed =>
      if parsed.isObj then parsed else fallback_timeline documents attrErr
    | .error e => fallback_timeline documents e

-- ==================== ai_service.py ====================

/-- The dict returned by the `except` handler of `extract_prescription`
(simple_backend/app/services/ai_service.py): a complete payload shape with
an `error` marker, never an exception. -/
def extraction_error_payload (e : String) : Json :=
  Json.obj
    [("doctor_name", .str "Unknown"),
     ("date", .str "Unknown"),
     ("medications", .arr []),
     ("diagnosis", .str "Could not extract"),
     ("instructions", .str ""),
     ("error", .str e)]

/-- `extract_prescription(image_path)` of ai_service.py.  `genResult` is
the outcome of the Gemini vision call (`.error` when the upload or the
generation call raised).  The whole body sits in `try/except Exception`,
and the handler returns `extraction_error_payload`, so extraction failures
are swallowed: the function always returns a payload dict and never
raises. -/
def extract_prescription (jsonLoads : List Char → Except String Json)
    (genResult : Except String (List Char)) : Json :=
  match genResult with
  | .error e => extraction_error_payload e
  | .ok raw =>
    let text := cleanText (pyStrip raw)
    match jsonLoads text with
    | .ok parsed =>
      if parsed.isObj then parsed else extraction_error_payload attrErr
    | .error e => extraction_error_payload e

-- ==================== data model (mongo_service.py collections) ====================

/-- A registered patient (mongodb_storage); only the fields the batch and
timeline routes read. -/
structure Patient where
  patient_id : String
  name : String

/-- A record of the `batches` collection, as created by
`start_document_batch` / `upload_document_to_batch`. -/
structure Batch where
  batch_id : String
  patient_id : String
  patient_name : String
  document_ids : List String
  status : String
  created_at : Nat
  completed_at : Option Nat

/-- A record of the `timelines` collection, as assembled by
`complete_batch_and_generate_timeline` (`timeline_record`): the metadata
fields plus the unpacked synthesizer output `data` (`**timeline_data`). -/
structure Timeline where
  patient_id : String
  patient_name : String
  batch_id : String
  generated_at : Nat
  total_documents : Nat
  data : Json

/-- The backwards-compatibility history entry written alongside the
timeline (`add_history`); only identity fields are modelled. -/
structure HistoryEntry where
  patient_id : String
  batch_id : String
  entry_type : String

/-- The whole persisted state: each MongoDB collection as a list of
records in insertion order (Mongo natural order: `find` / `find_one`
without a sort scan in this order). -/
structure St where
  patients : List Patient
  batches : List Batch
  documents : List Doc
  timelines : List Timeline
  history : List HistoryEntry

/-- `mongodb_storage.get_patient(patient_id)`: first record with the id. -/
def get_patient (st : St) (pid : String) : Option Patient :=
  st.patients.find? (fun p => p.patient_id == pid)

/-- `mongo_service.get_batch(batch_id)`: `find_one({"batch_id": batch_id})`. -/
def get_batch (st : St) (bid : String) : Option Batch :=
  st.batches.find? (fun b => b.batch_id == bid)

/-- `mongo_service.get_active_batch(patient_id)`:
`find_one({"patient_id": ..., "status": {"$in": ["pending", "processing"]}})`. -/
def get_active_batch (st : St) (pid : String) : Option Batch :=
  st.batches.find? (fun b =>
    b.patient_id == pid && (b.status == "pending" || b.status == "processing"))

/-- `mongo_service.add_document_to_batch`: `update_one` pushing the
document id onto the first batch with the id; a no-op when no batch
matches (Mongo `update_one` matches nothing and reports 0 modified). -/
def add_document_to_batch : List Batch → String → String → List Batch
  | [], _, _ => []
  | b :: rest, bid, did =>
    if b.batch_id == bid then
      { b with document_ids := b.document_ids ++ [did] } :: rest
    else b :: add_document_to_batch rest bid did

/-- `mongo_service.update_batch_status`: `$set` the status on the first
matching batch, and also `completed_at` when the status is "completed". -/
def update_batch_status : List Batch → String → String → Nat → List Batch
  | [], _, _, _ => []
  | b :: rest, bid, status, now =>
    if b.batch_id == bid then
      { b with
        status := status,
        completed_at := if status == "completed" then some now else b.completed_at }
        :: rest
    else b :: update_batch_status rest bid status now

/-- `mongo_service.update_document_status(document_id, status, extracted_data)`:
`$set` status on the first matching document, and `extracted_data` exactly
when a payload was supplied (`if extracted_data is not None` — an empty
dict is a payload and is written). -/
def update_document_status : List Doc → String → String → Option Json → List Doc
  | [], _, _, _ => []
  | d :: rest, did, status, payload =>
    if d.document_id == did then
      { d with
        status := status,
        extracted_data := match payload with
          | some j => j
          | none => d.extracted_data }
        :: rest
    else d :: update_document_status rest did status payload

/-- Stable insertion by ascending `uploaded_at` (helper for the Mongo
ascending-sort of `get_batch_documents`). -/
def insertByTime (d : Doc) : List Doc → List Doc
  | [] => [d]
  | e :: rest =>
    if d.uploaded_at ≤ e.uploaded_at then d :: e :: rest
    else e :: insertByTime d rest

/-- Sort documents by ascending `uploaded_at`. -/
def sortByTime : List Doc → List Doc
  | [] => []
  | d :: rest => insertByTime d (sortByTime rest)

/-- `mongo_service.get_batch_documents(batch_id)`: all documents of the
batch sorted by `uploaded_at` ascending (upload order). -/
def get_batch_documents (st : St) (bid : String) : List Doc :=
  sortByTime (st.documents.filter (fun d => d.batch_id == bid))

/-- `mongo_service.save_timeline(timeline_data)`: delete every timeline of
the record's patient (`delete_many`), then insert the new record. -/
def save_timeline (timelines : List Timeline) (rec : Timeline) : List Timeline :=
  (timelines.filter (fun t => !(t.patient_id == rec.patient_id))) ++ [rec]

/-- `mongo_service.get_patient_timeline(patient_id)`: `find_one` with sort
`generated_at` descending — the first record among those of the patient
with maximal `generated_at`. -/
def get_patient_timeline (timelines : List Timeline) (pid : String) : Option Timeline :=
  (timelines.filter (fun t => t.patient_id == pid)).foldl
    (fun acc t =>
      match acc with
      | none => some t
      | some b => if t.generated_at > b.generated_at then some t else some b)
    none

-- ==================== routes/documents.py ====================

/-- An HTTPException surfaced to the client. -/
structure Err where
  code : Nat
  detail : String

/-- Response of `start_document_batch`. -/
structure StartResp where
  message : String
  batch_id : String

/-- `start_document_batch(patient_id)`: 404 when the patient does not
exist; when an active (pending/processing) batch exists, return its id and
change nothing; otherwise insert a fresh pending batch (`fresh` stands for
the generated `BATCH_...` uuid, `now` for `datetime.now()`). -/
def start_document_batch (st : St) (pid : String) (fresh : String) (now : Nat) :
    Except Err StartResp × St :=
  match get_patient st pid with
  | none => (.error ⟨404, "Patient " ++ pid ++ " not found"⟩, st)
  | some patient =>
    match get_active_batch st pid with
    | some b => (.ok ⟨"Batch already active", b.batch_id⟩, st)
    | none =>
      let nb : Batch :=
        { batch_id := fresh, patient_id := pid, patient_name := patient.name,
          document_ids := [], status := "pending", created_at := now,
          completed_at := none }
      (.ok ⟨"Document batch started", fresh⟩,
        { st with batches := st.batches ++ [nb] })

/-- Response of `upload_document_to_batch`. -/
structure UploadResp where
  document_id : String
  batch_id : String
  document_number : Nat
  extracted_data : Json

/-- File extensions accepted by `upload_document_to_batch`. -/
def allowed_extensions : List String := ["jpg", "jpeg", "png", "pdf"]

/-- Content types accepted by `upload_document_to_batch`. -/
def allowed_types : List String :=
  ["image/jpeg", "image/png", "image/jpg", "application/pdf"]

/-- Detail of the 500 raised when the handler's generic `except Exception`
catches the AttributeError from `batch.get(...)` on a missing batch
(`None` has no attribute `get`). -/
def upload_attr_error : String := "Failed to process document: " ++ attrErr

/-- `upload_document_to_batch(patient_id, file, batch_id)` of
routes/documents.py.  Parameters standing for the environment: `ext` and
`ct` are the file extension and content type; `freshBatch` / `freshDoc`
the generated uuids; `now` the clock; `extractOutcome` the evaluation of
`await extract_prescription(image_path)` — `.ok payload` when it returned
(in the running system always, see `extract_prescription`), `.error e`
modelling a raising extractor, which the route's inner handler turns into
document status "failed" with no payload.  Behaviour mirrored from source:

  * 404 when the patient does not exist;
  * a supplied `batch_id` is used as-is (its existence is never checked);
  * without one, the active batch is used, or a fresh pending batch made;
  * 400 on a bad extension and content type;
  * the document record is saved (status "processing", extracted_data
    None), its id pushed onto the batch (a no-op if the batch is missing),
    the extraction outcome recorded on the document, and the batch
    re-fetched for the response: when the batch does not exist this last
    read is `None`, `batch.get` raises AttributeError, and the generic
    handler answers 500 "Failed to process document: ..." — the state
    mutations stay. -/
def upload_document_to_batch (st : St) (pid : String) (bidOpt : Option String)
    (ext ct : String) (extractOutcome : Except String Json)
    (freshBatch freshDoc : String) (now : Nat) : Except Err UploadResp × St :=
  match get_patient st pid with
  | none => (.error ⟨404, "Patient " ++ pid ++ " not found"⟩, st)
  | some patient =>
    let resolved : String × St :=
      match bidOpt with
      | some bid => (bid, st)
      | none =>
        match get_active_batch st pid with
        | some b => (b.batch_id, st)
        | none =>
          let nb : Batch :=
            { batch_id := freshBatch, patient_id := pid,
              patient_name := patient.name, document_ids := [],
              status := "pending", created_at := now, completed_at := none }
          (freshBatch, { st with batches := st.batches ++ [nb] })
    let bid := resolved.1
    let st1 := resolved.2
    if !(allowed_extensions.contains ext) && !(allowed_types.contains ct) then
      (.error ⟨400, "Invalid file type. Allowed: jpg, jpeg, png, pdf"⟩, st1)
    else
      let docRec : Doc :=
        { document_id := freshDoc, patient_id := pid, batch_id := bid,
          image_file := pid ++ "_" ++ freshDoc ++ "." ++ ext,
          status := "processing", uploaded_at := now,
          extracted_data := Json.null }
      let st2 := { st1 with documents := st1.documents ++ [docRec] }
      let st3 := { st2 with batches := add_document_to_batch st2.batches bid freshDoc }
      let afterExtract : St × Json :=
        match extractOutcome with
        | .ok payload =>
          ({ st3 with documents :=
              update_document_status st3.documents freshDoc "completed" (some payload) },
            payload)
        | .error e =>
          ({ st3 with documents :=
              update_document_status st3.documents freshDoc "failed" none },
            Json.obj [("error", .str e)])
      let st4 := afterExtract.1
      let prescription := afterExtract.2
      match get_batch st4 bid with
      | none => (.error ⟨500, upload_attr_error⟩, st4)
      | some b => (.ok ⟨freshDoc, bid, b.document_ids.length, prescription⟩, st4)

/-- Response of `complete_batch_and_generate_timeline`. -/
structure CompleteResp where
  batch_id : String
  timeline : Json

/-- Batch resolution of `complete_batch_and_generate_timeline`: the given
batch id is looked up, or the patient's active batch is used. -/
def resolve_batch (st : St) (pid : String) (bidOpt : Option String) :
    Except Err (String × Batch) :=
  match bidOpt with
  | none =>
    match get_active_batch st pid with
    | none => .error ⟨404, "No active document batch found"⟩
    | some b => .ok (b.batch_id, b)
  | some bid =>
    match get_batch st bid with
    | none => .error ⟨404, "Batch " ++ bid ++ " not found"⟩
    | some b => .ok (bid, b)

/-- `complete_batch_and_generate_timeline(patient_id, batch_id)` of
routes/documents.py.  `synthOutcome` is the evaluation of
`await generate_comprehensive_timeline(documents, patient)`: in the
running system always `.ok (generate_comprehensive_timeline ...)` since
that function catches every exception; `.error` models an exception
escaping the synthesis step (or the subsequent persistence calls), which
the route's `except Exception` turns into batch status "failed" and a 500.
Mirrored from source:

  * 404 when patient or batch cannot be resolved (state untouched);
  * 400 "No documents in batch" when the batch has no documents — raised
    before any mutation and re-raised past the `except HTTPException`
    branch, so the state is untouched;
  * otherwise: batch marked "processing", the synthesis outcome recorded —
    on success the timeline is saved (superseding the patient's previous
    ones), a history entry added, the batch marked "completed" and the
    timeline returned; on an escaping exception the batch is marked
    "failed" and a 500 returned. -/
def complete_batch_and_generate_timeline (st : St) (pid : String)
    (bidOpt : Option String) (synthOutcome : Except String Json) (now : Nat) :
    Except Err CompleteResp × St :=
  match get_patient st pid with
  | none => (.error ⟨404, "Patient " ++ pid ++ " not found"⟩, st)
  | some patient =>
    match resolve_batch st pid bidOpt with
    | .error e => (.error e, st)
    | .ok (bid, _) =>
      let documents := get_batch_documents st bid
      if documents.isEmpty then
        (.error ⟨400, "No documents in batch"⟩, st)
      else
        let st1 := { st with batches := update_batch_status st.batches bid "processing" now }
        match synthOutcome with
        | .error e =>
          ({ st1 with batches := update_batch_status st1.batches bid "failed" now }
              |> (fun s => (.error ⟨500, "Failed to generate timeline: " ++ e⟩, s)))
        | .ok timeline_data =>
          let rec_ : Timeline :=
            { patient_id := pid, patient_name := patient.name, batch_id := bid,
              generated_at := now, total_documents := documents.length,
              data := timeline_data }
          let st2 := { st1 with timelines := save_timeline st1.timelines rec_ }
          let st3 := { st2 with history :=
              st2.history ++ [(⟨pid, bid, "comprehensive_timeline"⟩ : HistoryEntry)] }
          let st4 := { st3 with batches := update_batch_status st3.batches bid "completed" now }
          (.ok ⟨bid, timeline_data⟩, st4)

-- ==================== lambdas/scribe_task/handler.py ====================

/-- Terminal and non-terminal states reported by
`get_transcription_job` for one poll. -/
inductive JobStatus where
  | completed (transcript : String) : JobStatus
  | failed (reason : String) : JobStatus
  | inProgress : JobStatus

/-- The polling loop of `transcribe_audio`: while `elapsed < 300` poll the
job (the `n`-th poll observes `poll n`): COMPLETED returns the transcript,
FAILED raises, otherwise sleep 5 seconds and add 5 to `elapsed`; when the
budget is exhausted raise "Transcription timed out". -/
def transcribe_poll_from (poll : Nat → JobStatus) (elapsed n : Nat) :
    Except String String :=
  if _h : elapsed < 300 then
    match poll n with
    | .completed t => .ok t
    | .failed r => .error ("Transcription failed: " ++ r)
    | .inProgress => transcribe_poll_from poll (elapsed + 5) (n + 1)
  else .error "Transcription timed out"
termination_by 300 - elapsed
decreasing_by omega

/-- `transcribe_audio(bucket_name, file_key)` after starting the job: the
polling loop starting at elapsed time 0 with fixed 5-second interval and
300-second budget. -/
def transcribe_audio (poll : Nat → JobStatus) : Except String String :=
  transcribe_poll_from poll 0 0

-- ==================== helper lemmas ====================

/-- After `save_timeline`, the saved record is the only timeline of its
patient: the delete-then-insert removes every other one. -/
theorem save_timeline_filter_self (tls : List Timeline) (rec_ : Timeline)
    (pid : String) (h : rec_.patient_id = pid) :
    (save_timeline tls rec_).filter (fun t => t.patient_id == pid) = [rec_] := by
  unfold save_timeline
  rw [List.filter_append]
  have h1 : ((tls.filter (fun t => !(t.patient_id == rec_.patient_id))).filter
      (fun t => t.patient_id == pid)) = [] := by
    rw [List.filter_eq_nil_iff]
    intro t ht
    have := List.of_mem_filter ht
    subst h
    simp_all
  rw [h1]
  simp [h]

/-- `get_patient_timeline` on a store whose records for the patient are a
single timeline returns it. -/
theorem get_patient_timeline_of_filter_singleton (tls : List Timeline)
    (pid : String) (u : Timeline)
    (h : tls.filter (fun t => t.patient_id == pid) = [u]) :
    get_patient_timeline tls pid = some u := by
  unfold get_patient_timeline
  rw [h]
  rfl

-- ==================== claim C10 ====================

/-- Claim C10: `update_document_status` with no payload argument modifies
only the status field of the matched document record — patient id, batch
id, file reference, upload timestamp and any previously stored
`extracted_data` stay as they were; `extracted_data` is written exactly
when a payload is supplied (an empty dict is a payload and is written).
Every record of the store is either untouched or related to its old value
as described. -/
theorem update_document_status_frame (docs : List Doc) (did status : String)
    (payload : Option Json) :
    List.Forall₂ (fun d d' =>
        d'.document_id = d.document_id ∧
        d'.patient_id = d.patient_id ∧
        d'.batch_id = d.batch_id ∧
        d'.image_file = d.image_file ∧
        d'.uploaded_at = d.uploaded_at ∧
        (d' = d ∨
          (d'.status = status ∧
            d'.extracted_data = match payload with
              | some j => j
              | none => d.extracted_data)))
      docs (update_document_status docs did status payload) := by
  induction docs with
  | nil => exact List.Forall₂.nil
  | cons d rest ih =>
    unfold update_document_status
    by_cases h : d.document_id == did
    · simp only [h, if_pos]
      exact List.Forall₂.cons (by simp) (List.forall₂_same.mpr (by tauto))
    · simp only [h]
      exact List.Forall₂.cons (by tauto) ih

-- ==================== claim C3 ====================

/-- Claim C3: after any number N ≥ 1 of successful synthesis runs for a
patient, the timeline store holds exactly one timeline for that patient —
each `save_timeline` deletes all of the patient's prior timelines before
inserting — and `get_patient_timeline` returns exactly the record of the
last (Nth) run. -/
theorem save_timeline_last_write_wins (tls : List Timeline)
    (recs : List Timeline) (pid : String) (hne : recs ≠ [])
    (hpid : ∀ r ∈ recs, r.patient_id = pid) :
    ((recs.foldl save_timeline tls).filter (fun t => t.patient_id == pid) =
        [recs.getLast hne]) ∧
      get_patient_timeline (recs.foldl save_timeline tls) pid =
        some (recs.getLast hne) := by
  obtain ⟨l, r, rfl⟩ : ∃ l r, recs = l ++ [r] := by
    rcases List.eq_nil_or_concat recs with h | ⟨l, r, h⟩
    · exact absurd h hne
    · exact ⟨l, r, by simpa using h⟩
  have hfold : (l ++ [r]).foldl save_timeline tls =
      save_timeline (l.foldl save_timeline tls) r := by
    rw [List.foldl_append]
    rfl
  have hlast : (l ++ [r]).getLast hne = r := List.getLast_concat _
  have hr : r.patient_id = pid := hpid r (by simp)
  have hfilter := save_timeline_filter_self (l.foldl save_timeline tls) r pid hr
  rw [hfold, hlast]
  exact ⟨hfilter, get_patient_timeline_of_filter_singleton _ _ _ hfilter⟩

/-- Witness for C3: three saves for patient "P" leave exactly the third
record, and `get_patient_timeline` returns it. -/
theorem save_timeline_last_write_wins_witness :
    (([(⟨"P", "n", "B1", 1, 1, Json.null⟩ : Timeline),
        ⟨"P", "n", "B2", 2, 1, Json.null⟩,
        ⟨"P", "n", "B3", 3, 1, Json.null⟩].foldl save_timeline []).filter
          (fun t => t.patient_id == "P") =
        [(⟨"P", "n", "B3", 3, 1, Json.null⟩ : Timeline)]) ∧
      get_patient_timeline
        ([(⟨"P", "n", "B1", 1, 1, Json.null⟩ : Timeline),
          ⟨"P", "n", "B2", 2, 1, Json.null⟩,
          ⟨"P", "n", "B3", 3, 1, Json.null⟩].foldl save_timeline []) "P" =
        some ⟨"P", "n", "B3", 3, 1, Json.null⟩ := by
  have := save_timeline_last_write_wins []
    [(⟨"P", "n", "B1", 1, 1, Json.null⟩ : Timeline),
      ⟨"P", "n", "B2", 2, 1, Json.null⟩,
      ⟨"P", "n", "B3", 3, 1, Json.null⟩] "P" (by simp)
    (by intro r hr; fin_cases hr <;> rfl)
  simpa using this

-- ==================== claim C4 ====================

/-- Claim C4: requesting completion for a batch with zero attached
documents fails with the InvalidState error (HTTP 400, "No documents in
batch") and leaves the whole state — in particular the batch's status —
unchanged: the check happens before any mutation and the raised
HTTPException is re-raised past the failure handler. -/
theorem complete_batch_empty_invalid_state (st : St) (pid : String)
    (bidOpt : Option String) (synthOutcome : Except String Json) (now : Nat)
    (patient : Patient) (bid : String) (b : Batch)
    (hp : get_patient st pid = some patient)
    (hb : resolve_batch st pid bidOpt = .ok (bid, b))
    (hdocs : get_batch_documents st bid = []) :
    complete_batch_and_generate_timeline st pid bidOpt synthOutcome now =
      (.error ⟨400, "No documents in batch"⟩, st) := by
  unfold complete_batch_and_generate_timeline
  rw [hp, hb]
  dsimp only
  rw [hdocs]
  rfl

/-- Witness for C4: a pending batch with no documents; completion answers
400 and the state is returned untouched. -/
theorem complete_batch_empty_invalid_state_witness :
    complete_batch_and_generate_timeline
        ⟨[⟨"P1", "Asha"⟩],
          [⟨"B1", "P1", "Asha", [], "pending", 0, none⟩], [], [], []⟩
        "P1" (some "B1") (.ok Json.null) 5 =
      (.error ⟨400, "No documents in batch"⟩,
        ⟨[⟨"P1", "Asha"⟩],
          [⟨"B1", "P1", "Asha", [], "pending", 0, none⟩], [], [], []⟩) :=
  complete_batch_empty_invalid_state _ "P1" (some "B1") (.ok Json.null) 5
    ⟨"P1", "Asha"⟩ "B1" ⟨"B1", "P1", "Asha", [], "pending", 0, none⟩
    rfl rfl rfl

-- ==================== claim C5 ====================

/-- The batch id of a successful `start_document_batch` response. -/
def ok_batch_id : Except Err StartResp → Option String
  | .ok r => some r.batch_id
  | .error _ => none

/-- Claim C5: for an existing patient, two consecutive
`start_document_batch` calls with no intervening completion return the
same batch id: an active (pending/processing) batch is returned unchanged
instead of creating a new one. -/
theorem start_document_batch_idempotent (st : St) (pid : String) (p : Patient)
    (f1 f2 : String) (n1 n2 : Nat) (hp : get_patient st pid = some p) :
    ∃ bid,
      ok_batch_id (start_document_batch st pid f1 n1).1 = some bid ∧
        ok_batch_id
            (start_document_batch (start_document_batch st pid f1 n1).2 pid
              f2 n2).1 =
          some bid := by
  cases hact : get_active_batch st pid with
  | some b =>
    refine ⟨b.batch_id, ?_, ?_⟩ <;>
      simp [start_document_batch, hp, hact, ok_batch_id]
  | none =>
    refine ⟨f1, ?_, ?_⟩
    · simp [start_document_batch, hp, hact, ok_batch_id]
    have hsnd : (start_document_batch st pid f1 n1).2 =
        { st with batches := st.batches ++
            [{ batch_id := f1, patient_id := pid, patient_name := p.name,
               document_ids := [], status := "pending", created_at := n1,
               completed_at := none }] } := by
      simp [start_document_batch, hp, hact]
    rw [hsnd]
    have hp2 : get_patient
        { st with batches := st.batches ++
            [{ batch_id := f1, patient_id := pid, patient_name := p.name,
               document_ids := [], status := "pending", created_at := n1,
               completed_at := none }] } pid = some p := hp
    have hact2 : get_active_batch
        { st with batches := st.batches ++
            [{ batch_id := f1, patient_id := pid, patient_name := p.name,
               document_ids := [], status := "pending", created_at := n1,
               completed_at := none }] } pid =
        some { batch_id := f1, patient_id := pid, patient_name := p.name,
               document_ids := [], status := "pending", created_at := n1,
               completed_at := none } := by
      unfold get_active_batch at hact ⊢
      rw [List.find?_append, hact]
      simp
    simp [start_document_batch, hp2, hact2, ok_batch_id]

/-- Witness for C5: a patient with no batches; the first call creates
batch "F1" and the second call returns "F1" again. -/
theorem start_document_batch_idempotent_witness :
    ∃ bid,
      ok_batch_id
          (start_document_batch ⟨[⟨"P1", "Asha"⟩], [], [], [], []⟩ "P1" "F1"
            1).1 =
        some bid ∧
        ok_batch_id
            (start_document_batch
              (start_document_batch ⟨[⟨"P1", "Asha"⟩], [], [], [], []⟩ "P1"
                "F1" 1).2
              "P1" "F2" 2).1 =
          some bid :=
  start_document_batch_idempotent ⟨[⟨"P1", "Asha"⟩], [], [], [], []⟩ "P1"
    ⟨"P1", "Asha"⟩ "F1" "F2" 1 2 rfl

-- ==================== claim C9 ====================

/-- One unfolding of the loop when the budget is not exhausted and the
poll reports an in-progress job. -/
theorem transcribe_poll_from_progress (poll : Nat → JobStatus)
    (elapsed n : Nat) (h : elapsed < 300) (hp : poll n = .inProgress) :
    transcribe_poll_from poll elapsed n =
      transcribe_poll_from poll (elapsed + 5) (n + 1) := by
  rw [transcribe_poll_from.eq_def, dif_pos h, hp]

/-- One unfolding of the loop when the budget is exhausted. -/
theorem transcribe_poll_from_timeout_step (poll : Nat → JobStatus)
    (elapsed n : Nat) (h : ¬ elapsed < 300) :
    transcribe_poll_from poll elapsed n = .error "Transcription timed out" := by
  rw [transcribe_poll_from.eq_def, dif_neg h]

/-- One unfolding of the loop when the job has reached a terminal state
within the budget. -/
theorem transcribe_poll_from_terminal (poll : Nat → JobStatus)
    (elapsed n : Nat) (h : elapsed < 300) :
    transcribe_poll_from poll elapsed n =
      match poll n with
      | .completed t => .ok t
      | .failed r => .error ("Transcription failed: " ++ r)
      | .inProgress => transcribe_poll_from poll (elapsed + 5) (n + 1) := by
  rw [transcribe_poll_from.eq_def, dif_pos h]

/-- If every poll up to the budget reports an in-progress job, the loop
times out (helper, fuel-indexed). -/
theorem transcribe_poll_from_timeout (k : Nat) :
    ∀ (n : Nat) (poll : Nat → JobStatus), 60 ≤ n + k →
      (∀ m, m < 60 → poll m = .inProgress) →
      transcribe_poll_from poll (5 * n) n = .error "Transcription timed out" := by
  induction k with
  | zero =>
    intro n poll hn _
    exact transcribe_poll_from_timeout_step poll _ n (by omega)
  | succ k ih =>
    intro n poll hn hall
    by_cases hlt : n < 60
    · rw [transcribe_poll_from_progress poll _ n (by omega) (hall n hlt)]
      have h5 : 5 * n + 5 = 5 * (n + 1) := by ring
      rw [h5]
      exact ih (n + 1) poll (by omega) hall
    · exact transcribe_poll_from_timeout_step poll _ n (by omega)

/-- While the polls before index `j` are in-progress and `j` is within the
budget, the loop advances to the `j`-th poll (helper, fuel-indexed). -/
theorem transcribe_poll_from_advance (k : Nat) :
    ∀ (n : Nat) (poll : Nat → JobStatus), n + k < 60 →
      (∀ m, n ≤ m → m < n + k → poll m = .inProgress) →
      transcribe_poll_from poll (5 * n) n =
        transcribe_poll_from poll (5 * (n + k)) (n + k) := by
  induction k with
  | zero => intro n poll _ _; rfl
  | succ k ih =>
    intro n poll hn hall
    rw [transcribe_poll_from_progress poll _ n (by omega)
      (hall n (by omega) (by omega))]
    have h5 : 5 * n + 5 = 5 * (n + 1) := by ring
    rw [h5]
    have hrec := ih (n + 1) poll (by omega)
      (fun m hm hm' => hall m (by omega) (by omega))
    have heq : n + 1 + k = n + (k + 1) := by omega
    rw [heq] at hrec
    exact hrec

/-- The loop consults only the first 60 polls (helper, fuel-indexed). -/
theorem transcribe_poll_from_agree (k : Nat) :
    ∀ (n : Nat) (poll poll' : Nat → JobStatus), 60 ≤ n + k →
      (∀ m, m < 60 → poll' m = poll m) →
      transcribe_poll_from poll' (5 * n) n =
        transcribe_poll_from poll (5 * n) n := by
  induction k with
  | zero =>
    intro n poll poll' hn _
    rw [transcribe_poll_from_timeout_step poll _ n (by omega),
      transcribe_poll_from_timeout_step poll' _ n (by omega)]
  | succ k ih =>
    intro n poll poll' hn hagree
    by_cases hlt : n < 60
    · rw [transcribe_poll_from_terminal poll _ n (by omega),
        transcribe_poll_from_terminal poll' _ n (by omega), hagree n hlt]
      cases poll n with
      | completed t => rfl
      | failed r => rfl
      | inProgress =>
        have h5 : 5 * n + 5 = 5 * (n + 1) := by ring
        rw [h5]
        exact ih (n + 1) poll poll' (by omega) hagree
    · rw [transcribe_poll_from_timeout_step poll _ n (by omega),
        transcribe_poll_from_timeout_step poll' _ n (by omega)]

/-- Claim C9: the speech-to-text polling loop polls the transcription job
at a fixed 5-second interval under a fixed 300-second budget (so at most
60 polls — the result depends only on the first 60 poll outcomes), always
terminates (the loop is a total function), returns the transcript when the
job reaches COMPLETED, raises the failure error when it reaches FAILED,
and raises "Transcription timed out" when no terminal state is reached
within the budget. -/
theorem transcribe_audio_spec (poll : Nat → JobStatus) :
    ((∀ m, m < 60 → poll m = .inProgress) →
        transcribe_audio poll = .error "Transcription timed out") ∧
      (∀ j t, j < 60 → (∀ m, m < j → poll m = .inProgress) →
        poll j = .completed t → transcribe_audio poll = .ok t) ∧
      (∀ j r, j < 60 → (∀ m, m < j → poll m = .inProgress) →
        poll j = .failed r →
          transcribe_audio poll = .error ("Transcription failed: " ++ r)) ∧
      (∀ poll', (∀ m, m < 60 → poll' m = poll m) →
        transcribe_audio poll' = transcribe_audio poll) := by
  have hz : (5 : Nat) * 0 = 0 := by omega
  refine ⟨?_, ?_, ?_, ?_⟩
  · intro hall
    have := transcribe_poll_from_timeout 60 0 poll (by omega) hall
    rw [hz] at this
    exact this
  · intro j t hj hbefore hj'
    have hadv := transcribe_poll_from_advance j 0 poll (by omega)
      (fun m hm hm' => hbefore m (by omega))
    rw [hz, Nat.zero_add] at hadv
    unfold transcribe_audio
    rw [hadv, transcribe_poll_from_terminal poll _ j (by omega), hj']
  · intro j r hj hbefore hj'
    have hadv := transcribe_poll_from_advance j 0 poll (by omega)
      (fun m hm hm' => hbefore m (by omega))
    rw [hz, Nat.zero_add] at hadv
    unfold transcribe_audio
    rw [hadv, transcribe_poll_from_terminal poll _ j (by omega), hj']
  · intro poll' hagree
    have := transcribe_poll_from_agree 60 0 poll poll' (by omega) hagree
    rw [hz] at this
    exact this

/-- Witness for C9: a job that completes on the third poll after two
in-progress polls yields its transcript. -/
theorem transcribe_audio_spec_witness :
    transcribe_audio
        (fun n => if n < 2 then .inProgress else .completed "hello") =
      .ok "hello" :=
  (transcribe_audio_spec
      (fun n => if n < 2 then .inProgress else .completed "hello")).2.1 2
    "hello" (by omega)
    (fun m hm => by simp [hm])
    (by simp)

-- ==================== helpers for the upload route ====================

/-- `add_document_to_batch` with an unknown batch id matches nothing and
changes nothing (Mongo `update_one` with no match). -/
theorem add_document_to_batch_not_found (bs : List Batch) (bid did : String)
    (h : bs.find? (fun x => x.batch_id == bid) = none) :
    add_document_to_batch bs bid did = bs := by
  induction bs with
  | nil => rfl
  | cons hd tl ih =>
    rw [List.find?_eq_none] at h
    have hhd : (hd.batch_id == bid) = false := by simpa using h hd (by simp)
    have htl : tl.find? (fun x => x.batch_id == bid) = none := by
      rw [List.find?_eq_none]
      intro x hx
      exact h x (List.mem_cons_of_mem _ hx)
    simp [add_document_to_batch, hhd, ih htl]

/-- `add_document_to_batch` pushes the id onto the first matching batch,
which stays the first match afterwards. -/
theorem add_document_to_batch_find (bs : List Batch) (bid did : String)
    (b : Batch) (h : bs.find? (fun x => x.batch_id == bid) = some b) :
    (add_document_to_batch bs bid did).find? (fun x => x.batch_id == bid) =
      some { b with document_ids := b.document_ids ++ [did] } := by
  induction bs with
  | nil => simp at h
  | cons hd tl ih =>
    by_cases hhd : (hd.batch_id == bid) = true
    · rw [List.find?_cons, hhd] at h
      simp only at h
      cases h
      simp [add_document_to_batch, hhd, List.find?_cons]
    · have hhd' : (hd.batch_id == bid) = false := Bool.of_not_eq_true hhd
      rw [List.find?_cons, hhd'] at h
      simp only at h
      simp [add_document_to_batch, hhd', List.find?_cons, ih h]

/-- Updating a freshly appended document rewrites exactly that document. -/
theorem update_document_status_append_fresh (l : List Doc) (d0 : Doc)
    (s : String) (p : Option Json)
    (hfresh : ∀ d ∈ l, (d.document_id == d0.document_id) = false) :
    update_document_status (l ++ [d0]) d0.document_id s p =
      l ++ [{ d0 with
        status := s,
        extracted_data := (match p with
          | some j => j
          | none => d0.extracted_data) }] := by
  induction l with
  | nil => simp [update_document_status]
  | cons hd tl ih =>
    have hhd := hfresh hd (by simp)
    simp [update_document_status, hhd,
      ih (fun d hd' => hfresh d (by simp [hd']))]

/-- `update_document_status` keeps the number of records. -/
theorem update_document_status_length (docs : List Doc) (did s : String)
    (p : Option Json) :
    (update_document_status docs did s p).length = docs.length := by
  induction docs with
  | nil => rfl
  | cons hd tl ih =>
    by_cases h : (hd.document_id == did) = true
    · simp [update_document_status, h]
    · simp [update_document_status, Bool.of_not_eq_true h, ih]

/-- A document with a truthy payload contributes that payload to the
synthesis input. -/
theorem mem_synthesis_input (docs : List Doc) (d : Doc) (hd : d ∈ docs)
    (ht : d.extracted_data.truthy = true) :
    d.extracted_data ∈ synthesis_input docs := by
  unfold synthesis_input
  exact List.mem_filterMap.mpr ⟨d, hd, by rw [ht]; rfl⟩

-- ==================== claim C2 ====================

/-- Claim C2 counterexample: patient "P1" with pending batch "B1"; the
extraction adapter's external call raises ("NetworkError").  The adapter
swallows the exception and returns an error-marked payload dict, so the
uploaded document ends with status "completed" (not "failed"), carries a
truthy payload, and IS part of the synthesis input — against the claim
that a failed extraction yields status=failed with no payload and is
excluded from synthesis. -/
theorem extraction_failure_marked_completed_cex :
    ((((upload_document_to_batch
          ⟨[⟨"P1", "Asha"⟩], [⟨"B1", "P1", "Asha", [], "pending", 0, none⟩],
            [], [], []⟩
          "P1" (some "B1") "jpg" "image/jpeg"
          (.ok (extract_prescription (fun _ => .error "noparse")
            (.error "NetworkError")))
          "BF" "D1" 1).2.documents.find?
            (fun d => d.document_id == "D1")).map Doc.status) =
        some "completed") ∧
      ¬ ((((upload_document_to_batch
          ⟨[⟨"P1", "Asha"⟩], [⟨"B1", "P1", "Asha", [], "pending", 0, none⟩],
            [], [], []⟩
          "P1" (some "B1") "jpg" "image/jpeg"
          (.ok (extract_prescription (fun _ => .error "noparse")
            (.error "NetworkError")))
          "BF" "D1" 1).2.documents.find?
            (fun d => d.document_id == "D1")).map Doc.status) =
        some "failed") ∧
      (synthesis_input
        (upload_document_to_batch
          ⟨[⟨"P1", "Asha"⟩], [⟨"B1", "P1", "Asha", [], "pending", 0, none⟩],
            [], [], []⟩
          "P1" (some "B1") "jpg" "image/jpeg"
          (.ok (extract_prescription (fun _ => .error "noparse")
            (.error "NetworkError")))
          "BF" "D1" 1).2.documents).length = 1 := by
  refine ⟨rfl, by decide, rfl⟩

/-- Claim C2 as amended: when per-document extraction fails, the in-repo
extraction adapter swallows the failure and returns an error-marked
payload dict; the uploaded document is recorded with status "completed"
and that payload as its extracted data, the upload still succeeds (the
batch is not aborted), the batch record itself keeps its status, and the
document IS included in the synthesis input, since its payload is a
non-empty dict.  (The route's status="failed"/no-payload branch runs only
when the extract call itself raises, which this adapter never does.) -/
theorem extraction_failure_swallowed
    (jl : List Char → Except String Json) (e : String) (st : St)
    (pid bid ext ct fb fd : String) (now : Nat) (patient : Patient) (b : Batch)
    (hp : get_patient st pid = some patient)
    (hext : allowed_extensions.contains ext = true)
    (hb : get_batch st bid = some b)
    (hfresh : ∀ d ∈ st.documents, (d.document_id == fd) = false) :
    extract_prescription jl (.error e) = extraction_error_payload e ∧
      (extraction_error_payload e).truthy = true ∧
      (∃ d',
        (upload_document_to_batch st pid (some bid) ext ct
            (.ok (extract_prescription jl (.error e))) fb fd now).2.documents =
          st.documents ++ [d'] ∧
        d'.status = "completed" ∧
        d'.extracted_data = extraction_error_payload e ∧
        d'.extracted_data ∈ synthesis_input
          (upload_document_to_batch st pid (some bid) ext ct
            (.ok (extract_prescription jl (.error e))) fb fd now).2.documents ∧
        (∃ r, (upload_document_to_batch st pid (some bid) ext ct
            (.ok (extract_prescription jl (.error e))) fb fd now).1 = .ok r) ∧
        (get_batch (upload_document_to_batch st pid (some bid) ext ct
            (.ok (extract_prescription jl (.error e))) fb fd now).2 bid).map
            Batch.status =
          some b.status) := by
  have hb' : st.batches.find? (fun x => x.batch_id == bid) = some b := hb
  have hbfind := add_document_to_batch_find st.batches bid fd b hb'
  have hupd := update_document_status_append_fresh st.documents
    ⟨fd, pid, bid, pid ++ "_" ++ fd ++ "." ++ ext, "processing", now, Json.null⟩
    "completed" (some (extraction_error_payload e)) hfresh
  have hres : upload_document_to_batch st pid (some bid) ext ct
      (.ok (extract_prescription jl (.error e))) fb fd now =
      (.ok ⟨fd, bid, (b.document_ids ++ [fd]).length, extraction_error_payload e⟩,
        { st with
            documents := st.documents ++
              [⟨fd, pid, bid, pid ++ "_" ++ fd ++ "." ++ ext, "completed", now,
                extraction_error_payload e⟩],
            batches := add_document_to_batch st.batches bid fd }) := by
    simp only [upload_document_to_batch, hp, hext, Bool.not_true,
      Bool.false_and, Bool.false_eq_true, if_false]
    simp only [extract_prescription]
    rw [hupd]
    simp only [get_batch, hbfind]
  refine ⟨rfl, rfl, ?_⟩
  refine ⟨⟨fd, pid, bid, pid ++ "_" ++ fd ++ "." ++ ext, "completed", now,
    extraction_error_payload e⟩, ?_, rfl, rfl, ?_, ?_, ?_⟩
  · rw [hres]
  · rw [hres]
    exact mem_synthesis_input _ _ (by simp) rfl
  · exact ⟨_, by rw [hres]⟩
  · rw [hres]
    simp only [get_batch, hbfind]
    rfl

/-- Witness for the amended C2: concrete state, raising extraction call. -/
theorem extraction_failure_swallowed_witness :
    extract_prescription (fun _ => .error "noparse") (.error "IOError") =
        extraction_error_payload "IOError" ∧
      (extraction_error_payload "IOError").truthy = true ∧
      (∃ d',
        (upload_document_to_batch
            ⟨[⟨"P2", "Ravi"⟩], [⟨"B2", "P2", "Ravi", [], "pending", 0, none⟩],
              [], [], []⟩
            "P2" (some "B2") "png" "image/png"
            (.ok (extract_prescription (fun _ => .error "noparse")
              (.error "IOError")))
            "BG" "D9" 3).2.documents =
          [] ++ [d'] ∧
        d'.status = "completed" ∧
        d'.extracted_data = extraction_error_payload "IOError" ∧
        d'.extracted_data ∈ synthesis_input
          (upload_document_to_batch
            ⟨[⟨"P2", "Ravi"⟩], [⟨"B2", "P2", "Ravi", [], "pending", 0, none⟩],
              [], [], []⟩
            "P2" (some "B2") "png" "image/png"
            (.ok (extract_prescription (fun _ => .error "noparse")
              (.error "IOError")))
            "BG" "D9" 3).2.documents ∧
        (∃ r, (upload_document_to_batch
            ⟨[⟨"P2", "Ravi"⟩], [⟨"B2", "P2", "Ravi", [], "pending", 0, none⟩],
              [], [], []⟩
            "P2" (some "B2") "png" "image/png"
            (.ok (extract_prescription (fun _ => .error "noparse")
              (.error "IOError")))
            "BG" "D9" 3).1 = .ok r) ∧
        (get_batch (upload_document_to_batch
            ⟨[⟨"P2", "Ravi"⟩], [⟨"B2", "P2", "Ravi", [], "pending", 0, none⟩],
              [], [], []⟩
            "P2" (some "B2") "png" "image/png"
            (.ok (extract_prescription (fun _ => .error "noparse")
              (.error "IOError")))
            "BG" "D9" 3).2 "B2").map Batch.status =
          some "pending") :=
  extraction_failure_swallowed (fun _ => .error "noparse") "IOError"
    ⟨[⟨"P2", "Ravi"⟩], [⟨"B2", "P2", "Ravi", [], "pending", 0, none⟩],
      [], [], []⟩
    "P2" "B2" "png" "image/png" "BG" "D9" 3 ⟨"P2", "Ravi"⟩
    ⟨"B2", "P2", "Ravi", [], "pending", 0, none⟩ rfl rfl rfl
    (fun d hd => absurd hd (List.not_mem_nil d))

-- ==================== claim C8 ====================

/-- The HTTP status code of an error outcome. -/
def err_code {α : Type} : Except Err α → Option Nat
  | .error e => some e.code
  | .ok _ => none

/-- Claim C8 counterexample: uploading with a batch id ("BX") that matches
no batch does NOT fail with NotFound: the handler never checks the id, the
document record is saved, and the final response lookup crashes with an
AttributeError that the generic handler converts to a 500 — a different
error, raised after a state mutation. -/
theorem upload_unknown_batch_cex :
    (upload_document_to_batch ⟨[⟨"P1", "Asha"⟩], [], [], [], []⟩
        "P1" (some "BX") "jpg" "image/jpeg"
        (.ok (Json.obj [("doctor_name", .str "Dr")])) "BF" "D1" 1).1 =
      .error ⟨500, upload_attr_error⟩ ∧
    err_code (upload_document_to_batch ⟨[⟨"P1", "Asha"⟩], [], [], [], []⟩
        "P1" (some "BX") "jpg" "image/jpeg"
        (.ok (Json.obj [("doctor_name", .str "Dr")])) "BF" "D1" 1).1 =
      some 500 ∧
    ¬ (err_code (upload_document_to_batch ⟨[⟨"P1", "Asha"⟩], [], [], [], []⟩
        "P1" (some "BX") "jpg" "image/jpeg"
        (.ok (Json.obj [("doctor_name", .str "Dr")])) "BF" "D1" 1).1 =
      some 404) ∧
    (upload_document_to_batch ⟨[⟨"P1", "Asha"⟩], [], [], [], []⟩
        "P1" (some "BX") "jpg" "image/jpeg"
        (.ok (Json.obj [("doctor_name", .str "Dr")])) "BF" "D1"
        1).2.documents.length = 1 :=
  ⟨rfl, rfl, by decide, rfl⟩

/-- Claim C8 as amended: attaching a document with an unknown batch id
fails with a generic 500 internal error ("Failed to process document:
..." — the AttributeError from reading the missing batch for the
response), not with a NotFound error; by then the document record has
already been written (one more record in the document store). -/
theorem upload_unknown_batch_500 (st : St) (pid bid ext ct fb fd : String)
    (eo : Except String Json) (now : Nat) (patient : Patient)
    (hp : get_patient st pid = some patient)
    (hext : allowed_extensions.contains ext = true)
    (hb : get_batch st bid = none) :
    (upload_document_to_batch st pid (some bid) ext ct eo fb fd now).1 =
        .error ⟨500, upload_attr_error⟩ ∧
      (upload_document_to_batch st pid (some bid) ext ct eo fb fd
          now).2.documents.length = st.documents.length + 1 := by
  have hb' : st.batches.find? (fun x => x.batch_id == bid) = none := hb
  have hnoop := add_document_to_batch_not_found st.batches bid fd hb'
  cases eo with
  | ok payload =>
    have hres : upload_document_to_batch st pid (some bid) ext ct (.ok payload)
        fb fd now =
        (.error ⟨500, upload_attr_error⟩,
          { st with
              documents := update_document_status
                (st.documents ++
                  [⟨fd, pid, bid, pid ++ "_" ++ fd ++ "." ++ ext, "processing",
                    now, Json.null⟩])
                fd "completed" (some payload),
              batches := st.batches }) := by
      simp only [upload_document_to_batch, hp, hext, Bool.not_true,
        Bool.false_and, Bool.false_eq_true, if_false, hnoop]
      simp only [get_batch, hb']
    rw [hres]
    refine ⟨rfl, ?_⟩
    simp [update_document_status_length]
  | error e =>
    have hres : upload_document_to_batch st pid (some bid) ext ct (.error e)
        fb fd now =
        (.error ⟨500, upload_attr_error⟩,
          { st with
              documents := update_document_status
                (st.documents ++
                  [⟨fd, pid, bid, pid ++ "_" ++ fd ++ "." ++ ext, "processing",
                    now, Json.null⟩])
                fd "failed" none,
              batches := st.batches }) := by
      simp only [upload_document_to_batch, hp, hext, Bool.not_true,
        Bool.false_and, Bool.false_eq_true, if_false, hnoop]
      simp only [get_batch, hb']
    rw [hres]
    refine ⟨rfl, ?_⟩
    simp [update_document_status_length]

/-- Witness for the amended C8. -/
theorem upload_unknown_batch_500_witness :
    (upload_document_to_batch ⟨[⟨"P3", "Meena"⟩], [], [], [], []⟩
        "P3" (some "NOPE") "pdf" "application/pdf" (.ok Json.null) "BH" "D7"
        2).1 =
        .error ⟨500, upload_attr_error⟩ ∧
      (upload_document_to_batch ⟨[⟨"P3", "Meena"⟩], [], [], [], []⟩
          "P3" (some "NOPE") "pdf" "application/pdf" (.ok Json.null) "BH" "D7"
          2).2.documents.length =
        ([] : List Doc).length + 1 :=
  upload_unknown_batch_500 ⟨[⟨"P3", "Meena"⟩], [], [], [], []⟩
    "P3" "NOPE" "pdf" "application/pdf" "BH" "D7" (.ok Json.null) 2
    ⟨"P3", "Meena"⟩ rfl rfl rfl

-- ==================== claim C1 ====================

/-- `update_batch_status` rewrites the first matching batch, which stays
the first match afterwards. -/
theorem update_batch_status_find (bs : List Batch) (bid s : String)
    (now : Nat) (b : Batch)
    (h : bs.find? (fun x => x.batch_id == bid) = some b) :
    (update_batch_status bs bid s now).find? (fun x => x.batch_id == bid) =
      some { b with
        status := s,
        completed_at := (if s == "completed" then some now
          else b.completed_at) } := by
  induction bs with
  | nil => simp at h
  | cons hd tl ih =>
    by_cases hhd : (hd.batch_id == bid) = true
    · rw [List.find?_cons, hhd] at h
      simp only at h
      cases h
      simp [update_batch_status, hhd, List.find?_cons]
    · have hhd' : (hd.batch_id == bid) = false := Bool.of_not_eq_true hhd
      rw [List.find?_cons, hhd'] at h
      simp only at h
      simp [update_batch_status, hhd', List.find?_cons, ih h]

/-- A successfully resolved batch id has a first match in the store. -/
theorem resolve_batch_find (st : St) (pid : String) (bidOpt : Option String)
    (bid : String) (b : Batch)
    (h : resolve_batch st pid bidOpt = .ok (bid, b)) :
    ∃ b1, st.batches.find? (fun x => x.batch_id == bid) = some b1 := by
  unfold resolve_batch at h
  split at h
  · split at h
    · exact absurd h (by simp)
    · rename_i bb hg
      simp only [Except.ok.injEq, Prod.mk.injEq] at h
      obtain ⟨hbid, hbb⟩ := h
      subst hbid
      have hmem : bb ∈ st.batches := List.mem_of_find?_eq_some hg
      have hs : (st.batches.find? (fun x => x.batch_id == bb.batch_id)).isSome := by
        rw [List.find?_isSome]
        exact ⟨bb, hmem, by simp⟩
      exact Option.isSome_iff_exists.mp hs
  · split at h
    · exact absurd h (by simp)
    · rename_i bb hg
      simp only [Except.ok.injEq, Prod.mk.injEq] at h
      obtain ⟨hbid, hbb⟩ := h
      subst hbid
      exact ⟨bb, hg⟩

/-- Claim C1 counterexample, on the spec's own scenario: patient "P1",
batch "B1" with documents D1 (medication "A"), D2 (extraction failed,
payload None), D3 (medication "C"); the external generation call raises
("IOError").  `generate_comprehensive_timeline` catches the exception and
returns the fallback, so completion marks B1 "completed" (not "failed"),
writes a timeline for P1, and answers success — against the claim that
the error propagates, the batch is marked failed, and no timeline is
written. -/
theorem synthesis_call_failure_cex :
    ((get_batch (complete_batch_and_generate_timeline
        ⟨[⟨"P1", "Asha"⟩],
          [⟨"B1", "P1", "Asha", ["D1", "D2", "D3"], "pending", 0, none⟩],
          [⟨"D1", "P1", "B1", "f1", "completed", 1,
              .obj [("medications", .arr [.obj [("name", .str "A"),
                ("dosage", .str "500mg")]]), ("doctor_name", .str "Dr X")]⟩,
            ⟨"D2", "P1", "B1", "f2", "failed", 2, .null⟩,
            ⟨"D3", "P1", "B1", "f3", "completed", 3,
              .obj [("medications", .arr [.obj [("name", .str "C")]])]⟩],
          [], []⟩
        "P1" (some "B1")
        (.ok (generate_comprehensive_timeline (fun _ => .error "noparse")
          (get_batch_documents
            ⟨[⟨"P1", "Asha"⟩],
              [⟨"B1", "P1", "Asha", ["D1", "D2", "D3"], "pending", 0, none⟩],
              [⟨"D1", "P1", "B1", "f1", "completed", 1,
                  .obj [("medications", .arr [.obj [("name", .str "A"),
                    ("dosage", .str "500mg")]]),
                    ("doctor_name", .str "Dr X")]⟩,
                ⟨"D2", "P1", "B1", "f2", "failed", 2, .null⟩,
                ⟨"D3", "P1", "B1", "f3", "completed", 3,
                  .obj [("medications", .arr [.obj [("name", .str "C")]])]⟩],
              [], []⟩ "B1")
          (.error "IOError"))) 9).2 "B1").map Batch.status =
      some "completed") ∧
    ¬ (((get_batch (complete_batch_and_generate_timeline
        ⟨[⟨"P1", "Asha"⟩],
          [⟨"B1", "P1", "Asha", ["D1", "D2", "D3"], "pending", 0, none⟩],
          [⟨"D1", "P1", "B1", "f1", "completed", 1,
              .obj [("medications", .arr [.obj [("name", .str "A"),
                ("dosage", .str "500mg")]]), ("doctor_name", .str "Dr X")]⟩,
            ⟨"D2", "P1", "B1", "f2", "failed", 2, .null⟩,
            ⟨"D3", "P1", "B1", "f3", "completed", 3,
              .obj [("medications", .arr [.obj [("name", .str "C")]])]⟩],
          [], []⟩
        "P1" (some "B1")
        (.ok (generate_comprehensive_timeline (fun _ => .error "noparse")
          (get_batch_documents
            ⟨[⟨"P1", "Asha"⟩],
              [⟨"B1", "P1", "Asha", ["D1", "D2", "D3"], "pending", 0, none⟩],
              [⟨"D1", "P1", "B1", "f1", "completed", 1,
                  .obj [("medications", .arr [.obj [("name", .str "A"),
                    ("dosage", .str "500mg")]]),
                    ("doctor_name", .str "Dr X")]⟩,
                ⟨"D2", "P1", "B1", "f2", "failed", 2, .null⟩,
                ⟨"D3", "P1", "B1", "f3", "completed", 3,
                  .obj [("medications", .arr [.obj [("name", .str "C")]])]⟩],
              [], []⟩ "B1")
          (.error "IOError"))) 9).2 "B1").map Batch.status) =
      some "failed") ∧
    ((complete_batch_and_generate_timeline
        ⟨[⟨"P1", "Asha"⟩],
          [⟨"B1", "P1", "Asha", ["D1", "D2", "D3"], "pending", 0, none⟩],
          [⟨"D1", "P1", "B1", "f1", "completed", 1,
              .obj [("medications", .arr [.obj [("name", .str "A"),
                ("dosage", .str "500mg")]]), ("doctor_name", .str "Dr X")]⟩,
            ⟨"D2", "P1", "B1", "f2", "failed", 2, .null⟩,
            ⟨"D3", "P1", "B1", "f3", "completed", 3,
              .obj [("medications", .arr [.obj [("name", .str "C")]])]⟩],
          [], []⟩
        "P1" (some "B1")
        (.ok (generate_comprehensive_timeline (fun _ => .error "noparse")
          (get_batch_documents
            ⟨[⟨"P1", "Asha"⟩],
              [⟨"B1", "P1", "Asha", ["D1", "D2", "D3"], "pending", 0, none⟩],
              [⟨"D1", "P1", "B1", "f1", "completed", 1,
                  .obj [("medications", .arr [.obj [("name", .str "A"),
                    ("dosage", .str "500mg")]]),
                    ("doctor_name", .str "Dr X")]⟩,
                ⟨"D2", "P1", "B1", "f2", "failed", 2, .null⟩,
                ⟨"D3", "P1", "B1", "f3", "completed", 3,
                  .obj [("medications", .arr [.obj [("name", .str "C")]])]⟩],
              [], []⟩ "B1")
          (.error "IOError"))) 9).2.timelines.filter
        (fun t => t.patient_id == "P1")).length = 1 ∧
    err_code (complete_batch_and_generate_timeline
        ⟨[⟨"P1", "Asha"⟩],
          [⟨"B1", "P1", "Asha", ["D1", "D2", "D3"], "pending", 0, none⟩],
          [⟨"D1", "P1", "B1", "f1", "completed", 1,
              .obj [("medications", .arr [.obj [("name", .str "A"),
                ("dosage", .str "500mg")]]), ("doctor_name", .str "Dr X")]⟩,
            ⟨"D2", "P1", "B1", "f2", "failed", 2, .null⟩,
            ⟨"D3", "P1", "B1", "f3", "completed", 3,
              .obj [("medications", .arr [.obj [("name", .str "C")]])]⟩],
          [], []⟩
        "P1" (some "B1")
        (.ok (generate_comprehensive_timeline (fun _ => .error "noparse")
          (get_batch_documents
            ⟨[⟨"P1", "Asha"⟩],
              [⟨"B1", "P1", "Asha", ["D1", "D2", "D3"], "pending", 0, none⟩],
              [⟨"D1", "P1", "B1", "f1", "completed", 1,
                  .obj [("medications", .arr [.obj [("name", .str "A"),
                    ("dosage", .str "500mg")]]),
                    ("doctor_name", .str "Dr X")]⟩,
                ⟨"D2", "P1", "B1", "f2", "failed", 2, .null⟩,
                ⟨"D3", "P1", "B1", "f3", "completed", 3,
                  .obj [("medications", .arr [.obj [("name", .str "C")]])]⟩],
              [], []⟩ "B1")
          (.error "IOError"))) 9).1 = none :=
  ⟨rfl, by decide, rfl, rfl⟩

/-- Claim C1 as amended: when the external generation call raises, the
error IS recovered locally — `generate_comprehensive_timeline` catches the
exception and returns the deterministic fallback timeline carrying an
"error" marker; batch completion then proceeds normally: the caller gets a
success response containing the fallback, exactly one timeline (the
fallback record) is written for the patient, and the batch is marked
"completed", not "failed". -/
theorem synthesis_call_failure_recovered
    (jl : List Char → Except String Json) (st : St) (pid : String)
    (bidOpt : Option String) (e : String) (now : Nat)
    (patient : Patient) (bid : String) (b : Batch)
    (hp : get_patient st pid = some patient)
    (hres : resolve_batch st pid bidOpt = .ok (bid, b))
    (hne : get_batch_documents st bid ≠ [])
    (hobj : ∀ d ∈ get_batch_documents st bid,
      d.extracted_data.isObjOrNull = true) :
    generate_comprehensive_timeline jl (get_batch_documents st bid)
        (.error e) = fallback_timeline (get_batch_documents st bid) e ∧
      (fallback_timeline (get_batch_documents st bid) e).get? "error" =
        some (.str e) ∧
      (∃ r, (complete_batch_and_generate_timeline st pid bidOpt
          (.ok (generate_comprehensive_timeline jl
            (get_batch_documents st bid) (.error e))) now).1 = .ok r ∧
        r.timeline = fallback_timeline (get_batch_documents st bid) e) ∧
      (get_batch (complete_batch_and_generate_timeline st pid bidOpt
          (.ok (generate_comprehensive_timeline jl
            (get_batch_documents st bid) (.error e))) now).2 bid).map
          Batch.status = some "completed" ∧
      (complete_batch_and_generate_timeline st pid bidOpt
          (.ok (generate_comprehensive_timeline jl
            (get_batch_documents st bid) (.error e))) now).2.timelines.filter
          (fun t => t.patient_id == pid) =
        [⟨pid, patient.name, bid, now, (get_batch_documents st bid).length,
          fallback_timeline (get_batch_documents st bid) e⟩] := by
  obtain ⟨b1, hb1⟩ := resolve_batch_find st pid bidOpt bid b hres
  have hemp : (get_batch_documents st bid).isEmpty = false := by
    cases hcase : get_batch_documents st bid with
    | nil => exact absurd hcase hne
    | cons hd tl => rfl
  have hcomp : complete_batch_and_generate_timeline st pid bidOpt
      (.ok (generate_comprehensive_timeline jl (get_batch_documents st bid)
        (.error e))) now =
      (.ok ⟨bid, fallback_timeline (get_batch_documents st bid) e⟩,
        { st with
            batches := update_batch_status
              (update_batch_status st.batches bid "processing" now) bid
              "completed" now,
            timelines := save_timeline st.timelines
              ⟨pid, patient.name, bid, now,
                (get_batch_documents st bid).length,
                fallback_timeline (get_batch_documents st bid) e⟩,
            history := st.history ++
              [⟨pid, bid, "comprehensive_timeline"⟩] }) := by
    simp only [complete_batch_and_generate_timeline, hp, hres, hemp,
      Bool.false_eq_true, if_false]
    rfl
  refine ⟨rfl, rfl, ?_, ?_, ?_⟩
  · exact ⟨_, by rw [hcomp], rfl⟩
  · rw [hcomp]
    have h1 := update_batch_status_find st.batches bid "processing" now b1 hb1
    have h2 := update_batch_status_find
      (update_batch_status st.batches bid "processing" now) bid "completed"
      now _ h1
    simp only [get_batch, h2]
    rfl
  · rw [hcomp]
    exact save_timeline_filter_self st.timelines _ pid rfl

/-- Witness for the amended C1: one patient, one single-document batch, a
raising generation call; completion succeeds with the fallback. -/
theorem synthesis_call_failure_recovered_witness :
    generate_comprehensive_timeline (fun _ => .error "noparse")
        (get_batch_documents
          ⟨[⟨"P4", "Lata"⟩], [⟨"B4", "P4", "Lata", ["D4"], "pending", 0, none⟩],
            [⟨"D4", "P4", "B4", "f4", "completed", 1,
              .obj [("medications", .arr [])]⟩], [], []⟩ "B4")
        (.error "IOError") =
      fallback_timeline
        (get_batch_documents
          ⟨[⟨"P4", "Lata"⟩], [⟨"B4", "P4", "Lata", ["D4"], "pending", 0, none⟩],
            [⟨"D4", "P4", "B4", "f4", "completed", 1,
              .obj [("medications", .arr [])]⟩], [], []⟩ "B4") "IOError" ∧
      (fallback_timeline
        (get_batch_documents
          ⟨[⟨"P4", "Lata"⟩], [⟨"B4", "P4", "Lata", ["D4"], "pending", 0, none⟩],
            [⟨"D4", "P4", "B4", "f4", "completed", 1,
              .obj [("medications", .arr [])]⟩], [], []⟩ "B4")
          "IOError").get? "error" = some (.str "IOError") ∧
      (∃ r, (complete_batch_and_generate_timeline
          ⟨[⟨"P4", "Lata"⟩], [⟨"B4", "P4", "Lata", ["D4"], "pending", 0, none⟩],
            [⟨"D4", "P4", "B4", "f4", "completed", 1,
              .obj [("medications", .arr [])]⟩], [], []⟩ "P4" (some "B4")
          (.ok (generate_comprehensive_timeline (fun _ => .error "noparse")
            (get_batch_documents
              ⟨[⟨"P4", "Lata"⟩],
                [⟨"B4", "P4", "Lata", ["D4"], "pending", 0, none⟩],
                [⟨"D4", "P4", "B4", "f4", "completed", 1,
                  .obj [("medications", .arr [])]⟩], [], []⟩ "B4")
            (.error "IOError"))) 7).1 = .ok r ∧
        r.timeline = fallback_timeline
          (get_batch_documents
            ⟨[⟨"P4", "Lata"⟩], [⟨"B4", "P4", "Lata", ["D4"], "pending", 0, none⟩],
              [⟨"D4", "P4", "B4", "f4", "completed", 1,
                .obj [("medications", .arr [])]⟩], [], []⟩ "B4") "IOError") ∧
      (get_batch (complete_batch_and_generate_timeline
          ⟨[⟨"P4", "Lata"⟩], [⟨"B4", "P4", "Lata", ["D4"], "pending", 0, none⟩],
            [⟨"D4", "P4", "B4", "f4", "completed", 1,
              .obj [("medications", .arr [])]⟩], [], []⟩ "P4" (some "B4")
          (.ok (generate_comprehensive_timeline (fun _ => .error "noparse")
            (get_batch_documents
              ⟨[⟨"P4", "Lata"⟩],
                [⟨"B4", "P4", "Lata", ["D4"], "pending", 0, none⟩],
                [⟨"D4", "P4", "B4", "f4", "completed", 1,
                  .obj [("medications", .arr [])]⟩], [], []⟩ "B4")
            (.error "IOError"))) 7).2 "B4").map Batch.status =
        some "completed" ∧
      (complete_batch_and_generate_timeline
          ⟨[⟨"P4", "Lata"⟩], [⟨"B4", "P4", "Lata", ["D4"], "pending", 0, none⟩],
            [⟨"D4", "P4", "B4", "f4", "completed", 1,
              .obj [("medications", .arr [])]⟩], [], []⟩ "P4" (some "B4")
          (.ok (generate_comprehensive_timeline (fun _ => .error "noparse")
            (get_batch_documents
              ⟨[⟨"P4", "Lata"⟩],
                [⟨"B4", "P4", "Lata", ["D4"], "pending", 0, none⟩],
                [⟨"D4", "P4", "B4", "f4", "completed", 1,
                  .obj [("medications", .arr [])]⟩], [], []⟩ "B4")
            (.error "IOError"))) 7).2.timelines.filter
          (fun t => t.patient_id == "P4") =
        [⟨"P4", "Lata", "B4", 7,
          (get_batch_documents
            ⟨[⟨"P4", "Lata"⟩], [⟨"B4", "P4", "Lata", ["D4"], "pending", 0, none⟩],
              [⟨"D4", "P4", "B4", "f4", "completed", 1,
                .obj [("medications", .arr [])]⟩], [], []⟩ "B4").length,
          fallback_timeline
            (get_batch_documents
              ⟨[⟨"P4", "Lata"⟩], [⟨"B4", "P4", "Lata", ["D4"], "pending", 0, none⟩],
                [⟨"D4", "P4", "B4", "f4", "completed", 1,
                  .obj [("medications", .arr [])]⟩], [], []⟩ "B4") "IOError"⟩] :=
  synthesis_call_failure_recovered (fun _ => .error "noparse")
    ⟨[⟨"P4", "Lata"⟩], [⟨"B4", "P4", "Lata", ["D4"], "pending", 0, none⟩],
      [⟨"D4", "P4", "B4", "f4", "completed", 1,
        .obj [("medications", .arr [])]⟩], [], []⟩
    "P4" (some "B4") "IOError" 7 ⟨"P4", "Lata"⟩ "B4"
    ⟨"B4", "P4", "Lata", ["D4"], "pending", 0, none⟩
    rfl rfl (by simp [get_batch_documents, sortByTime, insertByTime])
    (by intro d hd; fin_cases hd <;> rfl)

-- ==================== claim C6 ====================

/-- None test (`x is None` / JSON null). -/
def Json.isNull : Json → Bool
  | .null => true
  | _ => false

/-- The `timeline_events` list of a timeline value. -/
def timeline_events_of (j : Json) : List Json :=
  match j.get? "timeline_events" with
  | some (.arr l) => l
  | _ => []

/-- Shape of each fallback event, relative to the (0-based index, document)
pair it was built from. -/
def fallback_event_shape (p : Nat × Doc) (ev : Json) : Prop :=
  ev.get? "event_type" = some (.str "prescription") ∧
    ev.get? "description" = some (.str ("Document " ++ toString (p.1 + 1))) ∧
    ev.get? "medications" =
      some (p.2.extracted_data.getD "medications" (.arr [])) ∧
    ev.get? "doctor" =
      some ((p.2.extracted_data.get? "doctor_name").getD .null)

/-- The fallback events are exactly one per document with truthy payload,
in order, each of the recorded shape (helper, generalised over the start
index of the enumeration). -/
theorem fallback_events_from_spec (docs : List Doc) : ∀ i : Nat,
    (fallback_events_from i docs).length =
        (docs.filter (fun d => d.extracted_data.truthy)).length ∧
      List.Forall₂ fallback_event_shape
        ((docs.enumFrom i).filter (fun p => p.2.extracted_data.truthy))
        (fallback_events_from i docs) := by
  induction docs with
  | nil => intro i; exact ⟨rfl, List.Forall₂.nil⟩
  | cons d rest ih =>
    intro i
    refine ⟨?_, ?_⟩
    · by_cases ht : d.extracted_data.truthy = true
      · simp only [fallback_events_from, ht, if_true, List.filter_cons,
          List.length_append, List.length_cons, List.length_nil,
          (ih (i + 1)).1]
        omega
      · have ht' : d.extracted_data.truthy = false := Bool.of_not_eq_true ht
        simp only [fallback_events_from, ht', Bool.false_eq_true, if_false,
          List.filter_cons, List.nil_append, (ih (i + 1)).1]
    · by_cases ht : d.extracted_data.truthy = true
      · simp only [List.enumFrom, fallback_events_from, ht, if_true,
          List.filter_cons, List.singleton_append]
        exact List.Forall₂.cons ⟨rfl, rfl, rfl, rfl⟩ (ih (i + 1)).2
      · have ht' : d.extracted_data.truthy = false := Bool.of_not_eq_true ht
        simp only [List.enumFrom, fallback_events_from, ht',
          Bool.false_eq_true, if_false, List.filter_cons, List.nil_append]
        exact (ih (i + 1)).2

/-- Claim C6 counterexample: a document whose extracted payload is the
empty dict — non-null, but falsy in Python — produces NO fallback event
(the comprehension filters on truthiness, not on non-nullness), against
the claim of exactly one event per document with a non-null payload. -/
theorem fallback_empty_payload_cex :
    Json.isNull
        ((⟨"D1", "P1", "B1", "f1", "completed", 1, Json.obj []⟩ :
          Doc).extracted_data) = false ∧
      (timeline_events_of (fallback_timeline
        [⟨"D1", "P1", "B1", "f1", "completed", 1, Json.obj []⟩]
        "boom")).length = 0 ∧
      ¬ ((timeline_events_of (fallback_timeline
        [⟨"D1", "P1", "B1", "f1", "completed", 1, Json.obj []⟩]
        "boom")).length = 1) :=
  ⟨rfl, rfl, by decide⟩

/-- Claim C6 as amended: the deterministic fallback timeline contains
exactly one event per document whose extracted payload is truthy (non-null
AND non-empty — an empty-dict payload yields no event), in document order;
each event has event_type "prescription", the positional description
"Document N" (N the 1-based position in the full document list), the
medications copied verbatim from the payload and the doctor field copied
when present; the current_medications, chronic_conditions and allergies
lists are empty and the "error" marker carries the failure text. -/
theorem fallback_timeline_spec (docs : List Doc) (e : String)
    (hobj : ∀ d ∈ docs, d.extracted_data.isObjOrNull = true) :
    (timeline_events_of (fallback_timeline docs e)).length =
        (docs.filter (fun d => d.extracted_data.truthy)).length ∧
      List.Forall₂ fallback_event_shape
        (docs.enum.filter (fun p => p.2.extracted_data.truthy))
        (timeline_events_of (fallback_timeline docs e)) ∧
      (fallback_timeline docs e).get? "current_medications" =
        some (.arr []) ∧
      (fallback_timeline docs e).get? "chronic_conditions" = some (.arr []) ∧
      (fallback_timeline docs e).get? "allergies" = some (.arr []) ∧
      (fallback_timeline docs e).get? "error" = some (.str e) := by
  have hev : timeline_events_of (fallback_timeline docs e) =
      fallback_events_from 0 docs := rfl
  have hspec := fallback_events_from_spec docs 0
  exact ⟨by rw [hev]; exact hspec.1,
    by rw [hev]; exact hspec.2, rfl, rfl, rfl, rfl⟩

/-- Witness for the amended C6: two documents, one with payload
`{name: "Paracetamol", dosage: "500mg"}`-style medications and one whose
extraction failed (payload None): exactly 1 fallback event. -/
theorem fallback_timeline_spec_witness :
    (timeline_events_of (fallback_timeline
        [⟨"D1", "P1", "B1", "f1", "completed", 1,
            .obj [("medications", .arr [.obj [("name", .str "Paracetamol"),
              ("dosage", .str "500mg")]])]⟩,
          ⟨"D2", "P1", "B1", "f2", "failed", 2, .null⟩] "boom")).length =
        (([⟨"D1", "P1", "B1", "f1", "completed", 1,
            .obj [("medications", .arr [.obj [("name", .str "Paracetamol"),
              ("dosage", .str "500mg")]])]⟩,
          ⟨"D2", "P1", "B1", "f2", "failed", 2, .null⟩] : List Doc).filter
            (fun d => d.extracted_data.truthy)).length ∧
      List.Forall₂ fallback_event_shape
        (([⟨"D1", "P1", "B1", "f1", "completed", 1,
            .obj [("medications", .arr [.obj [("name", .str "Paracetamol"),
              ("dosage", .str "500mg")]])]⟩,
          ⟨"D2", "P1", "B1", "f2", "failed", 2, .null⟩] :
            List Doc).enum.filter (fun p => p.2.extracted_data.truthy))
        (timeline_events_of (fallback_timeline
          [⟨"D1", "P1", "B1", "f1", "completed", 1,
              .obj [("medications", .arr [.obj [("name", .str "Paracetamol"),
                ("dosage", .str "500mg")]])]⟩,
            ⟨"D2", "P1", "B1", "f2", "failed", 2, .null⟩] "boom")) ∧
      (fallback_timeline
          [⟨"D1", "P1", "B1", "f1", "completed", 1,
              .obj [("medications", .arr [.obj [("name", .str "Paracetamol"),
                ("dosage", .str "500mg")]])]⟩,
            ⟨"D2", "P1", "B1", "f2", "failed", 2, .null⟩] "boom").get?
          "current_medications" = some (.arr []) ∧
      (fallback_timeline
          [⟨"D1", "P1", "B1", "f1", "completed", 1,
              .obj [("medications", .arr [.obj [("name", .str "Paracetamol"),
                ("dosage", .str "500mg")]])]⟩,
            ⟨"D2", "P1", "B1", "f2", "failed", 2, .null⟩] "boom").get?
          "chronic_conditions" = some (.arr []) ∧
      (fallback_timeline
          [⟨"D1", "P1", "B1", "f1", "completed", 1,
              .obj [("medications", .arr [.obj [("name", .str "Paracetamol"),
                ("dosage", .str "500mg")]])]⟩,
            ⟨"D2", "P1", "B1", "f2", "failed", 2, .null⟩] "boom").get?
          "allergies" = some (.arr []) ∧
      (fallback_timeline
          [⟨"D1", "P1", "B1", "f1", "completed", 1,
              .obj [("medications", .arr [.obj [("name", .str "Paracetamol"),
                ("dosage", .str "500mg")]])]⟩,
            ⟨"D2", "P1", "B1", "f2", "failed", 2, .null⟩] "boom").get?
          "error" = some (.str "boom") :=
  fallback_timeline_spec
    [⟨"D1", "P1", "B1", "f1", "completed", 1,
        .obj [("medications", .arr [.obj [("name", .str "Paracetamol"),
          ("dosage", .str "500mg")]])]⟩,
      ⟨"D2", "P1", "B1", "f2", "failed", 2, .null⟩] "boom"
    (by intro d hd; fin_cases hd <;> rfl)

-- ==================== claim C7 ====================

/-- A response wrapped exactly as the spec example: three backquotes, the
"json" tag, a newline, the document, a newline, three backquotes. -/
def wrap_json_fence (s : List Char) : List Char :=
  fence ++ jsonTag ++ '\n' :: s ++ '\n' :: fence

-- step lemmas for splitOnAux
theorem splitOnAux_nil (sep acc : List Char) :
    splitOnAux sep acc [] = [acc.reverse] := by
  simp [splitOnAux]

theorem splitOnAux_cons_pos (sep acc : List Char) (c : Char)
    (rest : List Char) (h : sep.isPrefixOf (c :: rest) = true) :
    splitOnAux sep acc (c :: rest) =
      acc.reverse :: splitOnAux sep [] (List.drop (sep.length - 1) rest) := by
  simp only [splitOnAux]
  rw [if_pos h]

theorem splitOnAux_cons_neg (sep acc : List Char) (c : Char)
    (rest : List Char) (h : sep.isPrefixOf (c :: rest) = false) :
    splitOnAux sep acc (c :: rest) = splitOnAux sep (c :: acc) rest := by
  simp only [splitOnAux]
  rw [if_neg]
  simp [h]

theorem isPrefixOf_append_right (p l r : List Char)
    (h : p.isPrefixOf l = true) : p.isPrefixOf (l ++ r) = true := by
  rw [List.isPrefixOf_iff_prefix] at h ⊢
  exact h.trans (List.prefix_append l r)

theorem fence_not_prefix_cons (c : Char) (rest : List Char)
    (hc : (backtick == c) = false) :
    fence.isPrefixOf (c :: rest) = false := by
  simp [fence, List.isPrefixOf, hc]

theorem fence_not_prefix_append (l r : List Char)
    (h : fence.isPrefixOf l = false) :
    fence.isPrefixOf (l ++ '\n' :: r) = false := by
  cases l with
  | nil =>
    exact fence_not_prefix_cons '\n' r (by decide)
  | cons x l1 =>
    cases hx : (backtick == x) with
    | false =>
      rw [List.cons_append]
      exact fence_not_prefix_cons x _ hx
    | true =>
      cases l1 with
      | nil =>
        simp only [List.cons_append, List.nil_append]
        simp only [fence, List.isPrefixOf, hx, Bool.true_and]
        simp [show (backtick == '\n') = false from by decide]
      | cons y l2 =>
        cases hy : (backtick == y) with
        | false =>
          rw [List.cons_append, List.cons_append]
          simp only [fence, List.isPrefixOf, hx, hy, Bool.true_and,
            Bool.false_and]
        | true =>
          cases l2 with
          | nil =>
            simp only [List.cons_append, List.nil_append]
            simp only [fence, List.isPrefixOf, hx, hy, Bool.true_and]
            simp [show (backtick == '\n') = false from by decide]
          | cons z t =>
            simp only [List.cons_append]
            simp only [fence, List.isPrefixOf, hx, hy, Bool.true_and] at h ⊢
            simpa using h

theorem splitOnAux_fence_suffix (s : List Char) : ∀ acc : List Char,
    hasTriple s = false →
    splitOnAux fence acc (s ++ '\n' :: fence) =
      [acc.reverse ++ s ++ ['\n'], []] := by
  induction s with
  | nil =>
    intro acc _
    rw [List.nil_append,
      splitOnAux_cons_neg _ _ _ _ (fence_not_prefix_cons '\n' _ (by decide)),
      show (fence : List Char) = backtick :: [backtick, backtick] from rfl,
      splitOnAux_cons_pos _ _ _ _ (by decide)]
    simp [splitOnAux]
  | cons c s' ih =>
    intro acc h
    have hor := Bool.or_eq_false_iff.mp (by simpa [hasTriple] using h)
    have hcond : fence.isPrefixOf ((c :: s') ++ '\n' :: fence) = false :=
      fence_not_prefix_append (c :: s') fence hor.1
    rw [List.cons_append] at hcond
    rw [List.cons_append, splitOnAux_cons_neg _ _ _ _ hcond,
      ih (c :: acc) hor.2]
    simp

theorem splitOn_wrap (s : List Char) (h : hasTriple s = false) :
    splitOn fence (wrap_json_fence s) =
      [[], 'j' :: 's' :: 'o' :: 'n' :: '\n' :: (s ++ ['\n']), []] := by
  unfold splitOn wrap_json_fence
  have h0 : fence.isPrefixOf (fence ++ (jsonTag ++ '\n' :: s ++ '\n' :: fence)) =
      true := isPrefixOf_append_right fence fence _ (by decide)
  rw [show fence ++ jsonTag ++ '\n' :: s ++ '\n' :: fence =
      backtick :: (backtick :: backtick :: (jsonTag ++ '\n' :: s ++ '\n' :: fence))
    from rfl]
  have h0' : fence.isPrefixOf (backtick :: backtick :: backtick ::
      (jsonTag ++ '\n' :: s ++ '\n' :: fence)) = true := h0
  rw [splitOnAux_cons_pos _ _ _ _ h0']
  rw [show List.drop (fence.length - 1)
      (backtick :: backtick :: (jsonTag ++ '\n' :: s ++ '\n' :: fence)) =
      jsonTag ++ '\n' :: s ++ '\n' :: fence from rfl]
  rw [show (jsonTag ++ '\n' :: s ++ '\n' :: fence : List Char) =
      'j' :: 's' :: 'o' :: 'n' :: '\n' :: (s ++ '\n' :: fence) from rfl]
  rw [splitOnAux_cons_neg _ _ _ _ (fence_not_prefix_cons _ _ (by decide)),
    splitOnAux_cons_neg _ _ _ _ (fence_not_prefix_cons _ _ (by decide)),
    splitOnAux_cons_neg _ _ _ _ (fence_not_prefix_cons _ _ (by decide)),
    splitOnAux_cons_neg _ _ _ _ (fence_not_prefix_cons _ _ (by decide)),
    splitOnAux_cons_neg _ _ _ _ (fence_not_prefix_cons _ _ (by decide))]
  rw [splitOnAux_fence_suffix s _ h]
  simp

theorem pyStrip_cons_newline (l : List Char) :
    pyStrip ('\n' :: l) = pyStrip l := by
  unfold pyStrip
  rw [List.dropWhile_cons]
  simp [show pyIsSpace '\n' = true from by decide]

theorem pyStrip_append_newline (l : List Char) :
    pyStrip (l ++ ['\n']) = pyStrip l := by
  unfold pyStrip
  cases hd : l.dropWhile pyIsSpace with
  | nil =>
    have h2 : (l ++ ['\n']).dropWhile pyIsSpace = [] := by
      rw [List.dropWhile_append, hd]
      simp [List.dropWhile_cons, show pyIsSpace '\n' = true from by decide]
    rw [h2]
  | cons c t =>
    have h2 : (l ++ ['\n']).dropWhile pyIsSpace = (c :: t) ++ ['\n'] := by
      rw [List.dropWhile_append, hd]
      simp
    rw [h2, List.reverse_append]
    simp only [List.reverse_cons, List.reverse_nil, List.nil_append,
      List.singleton_append, List.dropWhile_cons]
    simp [show pyIsSpace '\n' = true from by decide]

theorem hasTriple_of_parts (u m v : List Char)
    (hm : fence.isPrefixOf m = true) : hasTriple (u ++ (m ++ v)) = true := by
  induction u with
  | nil =>
    cases m with
    | nil => simp [fence, List.isPrefixOf] at hm
    | cons c m' =>
      rw [List.nil_append, List.cons_append]
      unfold hasTriple
      rw [show (c :: (m' ++ v)) = (c :: m') ++ v from rfl,
        isPrefixOf_append_right _ _ _ hm]
      rfl
  | cons a u' ih =>
    rw [List.cons_append]
    unfold hasTriple
    rw [ih, Bool.or_true]

theorem pyStrip_parts (s : List Char) : ∃ u v, s = u ++ (pyStrip s ++ v) := by
  refine ⟨s.takeWhile pyIsSpace,
    ((s.dropWhile pyIsSpace).reverse.takeWhile pyIsSpace).reverse, ?_⟩
  show s = s.takeWhile pyIsSpace ++
    (((s.dropWhile pyIsSpace).reverse.dropWhile pyIsSpace).reverse ++
      ((s.dropWhile pyIsSpace).reverse.takeWhile pyIsSpace).reverse)
  have h2 : (s.dropWhile pyIsSpace).reverse =
      (s.dropWhile pyIsSpace).reverse.takeWhile pyIsSpace ++
        (s.dropWhile pyIsSpace).reverse.dropWhile pyIsSpace :=
    Eq.symm (List.takeWhile_append_dropWhile _ _)
  have h3 := congrArg List.reverse h2
  rw [List.reverse_reverse, List.reverse_append] at h3
  conv_lhs => rw [← List.takeWhile_append_dropWhile pyIsSpace s, h3]

theorem not_fence_prefix_pyStrip (s : List Char) (h : hasTriple s = false) :
    fence.isPrefixOf (pyStrip s) = false := by
  cases hp : fence.isPrefixOf (pyStrip s) with
  | false => rfl
  | true =>
    obtain ⟨u, v, hs⟩ := pyStrip_parts s
    have := hasTriple_of_parts u (pyStrip s) v hp
    rw [← hs] at this
    rw [this] at h
    cases h

theorem pyStrip_wrap (s : List Char) :
    pyStrip (wrap_json_fence s) = wrap_json_fence s := by
  have hb : pyIsSpace backtick = false := by decide
  have hsplit : wrap_json_fence s =
      (fence ++ jsonTag ++ '\n' :: s ++ ['\n']) ++ fence := by
    simp [wrap_json_fence]
  have hhead : (wrap_json_fence s).dropWhile pyIsSpace = wrap_json_fence s := by
    show (backtick :: (backtick :: backtick ::
      (jsonTag ++ '\n' :: s ++ '\n' :: fence))).dropWhile pyIsSpace = _
    rw [List.dropWhile_cons]
    simp [hb]
    rfl
  have hrev : (wrap_json_fence s).reverse = backtick :: (backtick :: backtick ::
      (fence ++ jsonTag ++ '\n' :: s ++ ['\n']).reverse) := by
    rw [hsplit, List.reverse_append]
    rfl
  unfold pyStrip
  rw [hhead, hrev, List.dropWhile_cons]
  simp only [hb, Bool.false_eq_true, if_false]
  rw [← hrev, List.reverse_reverse]

theorem cleanText_wrap (s : List Char) (h : hasTriple s = false) :
    cleanText (wrap_json_fence s) = pyStrip s := by
  unfold cleanText
  have hpre : fence.isPrefixOf (wrap_json_fence s) = true :=
    isPrefixOf_append_right fence fence _ (by decide)
  rw [if_pos hpre]
  simp only [splitOn_wrap s h, List.getD_cons_succ, List.getD_cons_zero]
  rw [if_pos (by simp [jsonTag, List.isPrefixOf])]
  show pyStrip ('\n' :: (s ++ ['\n'])) = pyStrip s
  rw [pyStrip_cons_newline, pyStrip_append_newline]

theorem cleanText_no_fence (t : List Char)
    (h : fence.isPrefixOf t = false) : cleanText t = t := by
  unfold cleanText
  rw [h]
  simp

/-- Claim C7: a model response consisting of a structured document wrapped
in a markdown code fence (three backquotes + "json", newline, document,
newline, three backquotes) is cleaned and handed to the decoder as exactly
the same text as the identical unwrapped response, so the parsed timeline
is identical, whatever the decoder returns.  Hypothesis: the wrapped
document itself contains no triple-backquote run (a code fence inside the
document would be cut by `split`). -/
theorem markdown_fence_stripping (jsonLoads : List Char → Except String Json)
    (documents : List Doc) (s : List Char) (h : hasTriple s = false) :
    generate_comprehensive_timeline jsonLoads documents
        (.ok (wrap_json_fence s)) =
      generate_comprehensive_timeline jsonLoads documents (.ok s) := by
  have h1 : cleanText (pyStrip (wrap_json_fence s)) = pyStrip s := by
    rw [pyStrip_wrap, cleanText_wrap s h]
  have h2 : cleanText (pyStrip s) = pyStrip s :=
    cleanText_no_fence _ (not_fence_prefix_pyStrip s h)
  simp only [generate_comprehensive_timeline]
  rw [h1, h2]

/-- Witness for C7: the fenced and unfenced forms of the document "null"
produce the same synthesizer result. -/
theorem markdown_fence_stripping_witness :
    generate_comprehensive_timeline (fun _ => .error "noparse") []
        (.ok (wrap_json_fence "null".toList)) =
      generate_comprehensive_timeline (fun _ => .error "noparse") []
        (.ok "null".toList) :=
  markdown_fence_stripping (fun _ => .error "noparse") [] "null".toList
    (by decide)
